import Mathlib

/-!
Verification of the cubo repository (spatial-tile resolution and concurrent
patch-assembly engine) against its natural-language specification.

The source is shallowly embedded: projected coordinates are rationals, the
pyproj forward/inverse transforms are abstract parameters, Python's `round`
(banker's rounding, ties to even) is modelled explicitly, and the concurrent
collection loop of `earthengine.create` is modelled as a fold over the list of
completed fetch results in an arbitrary completion order (a permutation of the
submitted request list).
-/

namespace Cubo

/-- Python 3 `round` to an integer: round half to even (banker's rounding),
as applied to exact rational values. -/
def pythonRound (q : ℚ) : ℤ :=
  let f := ⌊q⌋
  let r := q - f
  if r < 1 / 2 then f
  else if 1 / 2 < r then f + 1
  else if 2 ∣ f then f else f + 1

/-- Rounding half away from zero, the policy the specification asserts for the
edge size ("round half away from zero"). Used only on the claim side. -/
def roundHalfAway (q : ℚ) : ℤ :=
  if 0 ≤ q then ⌊q + 1 / 2⌋ else -⌊-q + 1 / 2⌋

/-- Result of `_central_pixel_bbox` (utils.py lines 16-98). The fields
`west`/`south`/`east`/`north` are the intermediates `W`, `S`, `E`, `N` of
lines 69-72; `polygonUTM` and `polygonLatLon` are the polygon rings stored in
the returned `bbox_utm` / `bbox_latlon` dicts; `utmCoords` is the third
component of the returned tuple (the unrounded projected center). -/
structure CPBBox where
  west : ℚ
  south : ℚ
  east : ℚ
  north : ℚ
  polygonUTM : List (ℚ × ℚ)
  polygonLatLon : List (ℚ × ℚ)
  utmCoords : ℚ × ℚ
deriving DecidableEq

/-- Embedding of `_central_pixel_bbox` (utils.py lines 16-98).
The pyproj forward transform (WGS84 to the selected UTM CRS) and the inverse
transform are abstract parameters `transform` / `invTransform`; the EPSG zone
lookup is elided (it only selects which transform is used).
Line 60: `utm_coords = transformer.transform(lon, lat)`.
Line 63: `utm_coords_round = [round(coord / resolution) * resolution ...]`.
Line 66: `buffer = round(edge_size * resolution / 2)`.
Lines 69-81: corner coordinates and the closed 5-vertex polygon.
Line 84: the inverse transform applied to each polygon vertex individually. -/
def centralPixelBBox (transform invTransform : ℚ × ℚ → ℚ × ℚ)
    (lat lon edge_size resolution : ℚ) : CPBBox :=
  let utm_coords := transform (lon, lat)
  let xRound : ℚ := (pythonRound (utm_coords.1 / resolution) : ℚ) * resolution
  let yRound : ℚ := (pythonRound (utm_coords.2 / resolution) : ℚ) * resolution
  let buffer : ℚ := (pythonRound (edge_size * resolution / 2) : ℚ)
  let E := xRound + buffer
  let W := xRound - buffer
  let N := yRound + buffer
  let S := yRound - buffer
  let polygon := [(W, S), (E, S), (E, N), (W, N), (W, S)]
  { west := W, south := S, east := E, north := N
    polygonUTM := polygon
    polygonLatLon := polygon.map invTransform
    utmCoords := utm_coords }

/-- Projected bounding box (minx, miny, maxx, maxy) in projected units. -/
structure UTMBBox where
  minx : ℚ
  miny : ℚ
  maxx : ℚ
  maxy : ℚ
deriving DecidableEq

/-- Modelled from the spec: `_bbox_to_utm` is imported from `cubo.utils` at
cubo.py line 146 and called at lines 148-150, but no definition of it exists
anywhere in the source tree. Following spec section 4.2 (bounding-box mode):
the two diagonal corners of the WGS84 box are transformed to projected space
and expanded outward — floor to the nearest resolution multiple for the
minimum corner, ceil for the maximum corner. The transform is abstract. -/
def bboxToUTM (transform : ℚ × ℚ → ℚ × ℚ)
    (minx miny maxx maxy resolution : ℚ) : UTMBBox :=
  let pmin := transform (minx, miny)
  let pmax := transform (maxx, maxy)
  { minx := (⌊pmin.1 / resolution⌋ : ℚ) * resolution
    miny := (⌊pmin.2 / resolution⌋ : ℚ) * resolution
    maxx := (⌈pmax.1 / resolution⌉ : ℚ) * resolution
    maxy := (⌈pmax.2 / resolution⌉ : ℚ) * resolution }

instance instDecidableEqExcept {ε α : Type} [DecidableEq ε] [DecidableEq α] :
    DecidableEq (Except ε α) := fun a b =>
  match a, b with
  | Except.ok x, Except.ok y =>
      if h : x = y then isTrue (by rw [h]) else isFalse (by simp [h])
  | Except.error x, Except.error y =>
      if h : x = y then isTrue (by rw [h]) else isFalse (by simp [h])
  | Except.ok _, Except.error _ => isFalse (by simp)
  | Except.error _, Except.ok _ => isFalse (by simp)

/-- One submitted patch request of `earthengine.create` together with the final
outcome of its (internally retried) fetch: `id` and `date` come from the
`zip_list` of image ids and timestamps (earthengine.py lines 133-141);
`result` is what `future.result()` delivers at line 163 — a value for a
successful fetch or the exception the worker re-raises after its retry budget
is exhausted. The patch payload itself carries no information relevant to the
claims (its shape is determined by the band count and the edge size), so a
success is modelled as `Except.ok ()`. -/
structure EEItem where
  id : ℕ
  date : ℤ
  result : Except Unit Unit
deriving DecidableEq

/-- The assembled `xr.DataArray` of `earthengine.create` (lines 194-218),
restricted to the observables the claims talk about: the sorted time
coordinate, the `gee_image_ids` attribute (in completion order of the
successes, line 165), and the shape of the stacked data tensor. -/
structure EECube where
  timeAxis : List ℤ
  geeImageIds : List ℕ
  dataShape : List ℕ
deriving DecidableEq

/-- Python exceptions that the modelled fragments of `earthengine.create` can
raise: `typeError` for a call with too many positional arguments, and
`valueError` for the `xr.DataArray` constructor rejecting data whose
dimensionality or sizes do not match the declared dims and coords. -/
inductive PyError where
  | typeError
  | valueError
deriving DecidableEq

/-- The collection loop of `earthengine.create` (lines 158-170): futures are
consumed in completion order; a success appends its date, id and array, an
exception is caught (`except Exception as e: print(e); pass`) and contributes
nothing. The argument list is the completed futures in completion order. -/
def eeCollect (completed : List EEItem) : List EEItem :=
  completed.filter (fun i => i.result.isOk)

/-- `np.squeeze` on an array shape: removes all axes of size 1. -/
def squeezeShape (s : List ℕ) : List ℕ :=
  s.filter (fun d => d ≠ 1)

/-- Shape computation of `earthengine.create` lines 190-192: a tuple of `t`
patch arrays, each of shape `[bandCount, edge, edge]`, stacks to shape
`[t, bandCount, edge, edge]` (the empty tuple gives the 1-dimensional shape
`[0]`); the result is squeezed, and a leading axis is re-added when exactly
3 axes remain. -/
def eeDataShape (t bandCount edge : ℕ) : List ℕ :=
  let data0 : List ℕ := if t = 0 then [0] else [t, bandCount, edge, edge]
  let data1 := squeezeShape data0
  if data1.length = 3 then 1 :: data1 else data1

/-- Assembly portion of `earthengine.create` (lines 155-218). The successes
are collected in completion order (`eeCollect`); the stacked data shape is
computed by `eeDataShape`; the `xr.DataArray` constructor (lines 194-216)
succeeds exactly when that shape matches the declared dims
`[time, band, y, x]` with coordinate lengths `t`, `bandCount`, `edge`,
`edge` — otherwise it raises a `ValueError`. Finally `sortby("time")`
(line 218) sorts the time coordinate ascending; the `gee_image_ids`
attribute is not reordered. -/
def eeAssemble (bandCount edge : ℕ) (completed : List EEItem) :
    Except PyError EECube :=
  let successes := eeCollect completed
  let t := successes.length
  if eeDataShape t bandCount edge = [t, bandCount, edge, edge] then
    Except.ok
      { timeAxis := (successes.map (fun i => i.date)).insertionSort (· ≤ ·)
        geeImageIds := successes.map (fun i => i.id)
        dataShape := eeDataShape t bandCount edge }
  else Except.error PyError.valueError

/-- Number of parameters of `_ee_get_projection_metadata`
(utils.py lines 257-263): `collection`, `ee_geom`, `start_date`, `end_date`,
`bands`. -/
def eeGetProjectionMetadataParamCount : ℕ := 5

/-- Number of positional arguments `earthengine.create` passes to
`_ee_get_projection_metadata` (earthengine.py lines 87-89): `collection`,
`ee_point`, `start_date`, `end_date`, `bands`, `band_projection`. -/
def eeCreateProjectionCallArgCount : ℕ := 6

/-- Python call semantics for a function with only positional-or-keyword
parameters: passing more positional arguments than there are parameters
raises a `TypeError` before the function body runs. -/
def pyArityCheck (paramCount argCount : ℕ) : Except PyError Unit :=
  if paramCount < argCount then Except.error PyError.typeError
  else Except.ok ()

/-- Control flow of `earthengine.create` (lines 82-218): the call to
`_ee_get_projection_metadata` at lines 87-89 runs before anything else of
consequence; only if it returns does the function go on to submit one fetch
per catalog item (lines 150-153) and assemble the results. The first
component is the outcome of the call; the second counts the patch fetches
submitted. -/
def eeCreateRun (bandCount edge : ℕ) (completed : List EEItem) :
    Except PyError EECube × ℕ :=
  match pyArityCheck eeGetProjectionMetadataParamCount
      eeCreateProjectionCallArgCount with
  | Except.error e => (Except.error e, 0)
  | Except.ok _ => (eeAssemble bandCount edge completed, completed.length)

/-- Per-axis grid snap of `_ee_fix_coordinates` (utils.py lines 242-243):
`display_offset = round((local_coord - origin) / scale)`. -/
def eeDisplayOffset (origin scale coord : ℚ) : ℤ :=
  pythonRound ((coord - origin) / scale)

/-- Per-axis grid snap of `_ee_fix_coordinates` (utils.py lines 246-247):
`new_local = origin + display_offset * scale`. -/
def eeFixLocal (origin scale coord : ℚ) : ℚ :=
  origin + (eeDisplayOffset origin scale coord : ℚ) * scale

/-- Prepend one column to a matrix (helper for `transposeMat`). -/
def consColumn (col : List ℚ) (m : List (List ℚ)) : List (List ℚ) :=
  match col, m with
  | [], _ => []
  | c :: cs, [] => [c] :: consColumn cs []
  | c :: cs, r :: rs => (c :: r) :: consColumn cs rs

/-- Matrix transpose on row-major nested lists (numpy `.T` on a rectangular
2-D array). -/
def transposeMat (m : List (List ℚ)) : List (List ℚ) :=
  m.foldr consColumn []

/-- The geometry of an assembled cube as consumed by
`_compute_distance_to_center` (utils.py lines 101-124): the `x` and `y`
coordinate axes and the `central_x` / `central_y` attributes recorded at
footprint-construction time (cubo.py lines 284-285). -/
structure DAGeom where
  x : List ℚ
  y : List ℚ
  centralX : ℚ
  centralY : ℚ
deriving DecidableEq

/-- Embedding of `_compute_distance_to_center` (utils.py lines 101-124), with
every entry squared: the numpy result applies `sqrt` (via `np.linalg.norm`)
entrywise, which is not exactly representable in ℚ; since `sqrt` is strictly
monotone on nonnegatives, equality and inequality of entries is unaffected.
Line 115: `np.meshgrid(da.x, da.y)` is y-major — both component grids have
shape `(len(y), len(x))`, entry `[j][i]` being `x[i]` resp. `y[j]`.
Lines 118-122: subtract the central coordinates, take the entrywise squared
norm over the leading axis (shape `(len(y), len(x))`), then apply the final
`.T`, so the returned matrix has shape `(len(x), len(y))` with entry `[i][j]`
equal to the squared distance from `(x[i], y[j])` to the recorded center. -/
def computeDistanceToCenterSq (da : DAGeom) : List (List ℚ) :=
  let gridX : List (List ℚ) := da.y.map (fun _ => da.x)
  let gridY : List (List ℚ) := da.y.map (fun yv => da.x.map (fun _ => yv))
  let normSq : List (List ℚ) :=
    List.zipWith
      (fun rowX rowY =>
        List.zipWith
          (fun xv yv => (xv - da.centralX) ^ 2 + (yv - da.centralY) ^ 2)
          rowX rowY)
      gridX gridY
  transposeMat normSq

/-- The distance field as the claim states it (squared entries, see
`computeDistanceToCenterSq`): a `[height, width]` matrix — y-axis first — whose
entry at row `j`, column `i` is the squared Euclidean distance from
`(x[i], y[j])` to the recorded central coordinate. -/
def distanceFieldClaimSq (da : DAGeom) : List (List ℚ) :=
  da.y.map (fun yv =>
    da.x.map (fun xv => (xv - da.centralX) ^ 2 + (yv - da.centralY) ^ 2))

/-- The inputs of `cubo.create` (cubo.py lines 15-30) that its input
validation looks at, together with the geometry parameters needed to build
the footprint. -/
structure CuboInputs where
  lat : Option ℚ
  lon : Option ℚ
  bbox : Option (ℚ × ℚ × ℚ × ℚ)
  edgeSize : ℚ
  resolution : ℚ
deriving DecidableEq

/-- Errors of the modelled prefix of `cubo.create`. -/
inductive CuboError where
  | invalidInput
deriving DecidableEq

/-- The footprint `cubo.create` builds before any network activity: either the
center-point footprint from `_central_pixel_bbox` or the expanded projected
box of bounding-box mode. A catalog search or patch fetch consumes a built
footprint, so no network step can occur on the error path. -/
inductive Footprint where
  | centerMode (r : CPBBox)
  | bboxMode (b : UTMBBox)

/-- Prefix of `cubo.create` up to (and excluding) the first network activity
(cubo.py lines 140-162): line 141 raises `ValueError("Either bbox or
(lat, lon) must be provided")` when `bbox is None and (lat is None or lon is
None)`; otherwise the footprint is built purely — from `_bbox_to_utm` when a
bbox is given (lines 145-150, spec-modelled, see `bboxToUTM`), else from
`_central_pixel_bbox` (lines 160-162). The pyproj transforms are abstract
parameters. -/
def cuboCreatePlan (transform invTransform : ℚ × ℚ → ℚ × ℚ)
    (i : CuboInputs) : Except CuboError Footprint :=
  if i.bbox.isNone ∧ (i.lat.isNone ∨ i.lon.isNone) then
    Except.error CuboError.invalidInput
  else
    match i.bbox with
    | some (minx, miny, maxx, maxy) =>
        Except.ok (Footprint.bboxMode
          (bboxToUTM transform minx miny maxx maxy i.resolution))
    | none =>
        match i.lat, i.lon with
        | some la, some lo =>
            Except.ok (Footprint.centerMode
              (centralPixelBBox transform invTransform la lo
                i.edgeSize i.resolution))
        | _, _ => Except.error CuboError.invalidInput

/-- Concrete completed-fetch list used to instantiate the concurrency claims:
the submitted request list in catalog order. -/
def c1Items : List EEItem :=
  [⟨1, 5, Except.ok ()⟩, ⟨2, 3, Except.ok ()⟩, ⟨3, 9, Except.error ()⟩]

/-- The same requests in a different (reversed) completion order. -/
def c1Order : List EEItem :=
  [⟨3, 9, Except.error ()⟩, ⟨2, 3, Except.ok ()⟩, ⟨1, 5, Except.ok ()⟩]

/-- The cube assembled from `c1Order` with 2 bands and edge 4. -/
def c1Cube : EECube := ⟨[3, 5], [2, 1], [2, 2, 4, 4]⟩

/-- A `cubo.create` input with no bounding box and no latitude. -/
def c9Invalid : CuboInputs := ⟨none, some 10, none, 128, 10⟩

/-- A `cubo.create` input with a complete center point. -/
def c9Valid : CuboInputs := ⟨some 50, some 10, none, 128, 10⟩

theorem pythonRound_intCast (k : ℤ) : pythonRound (k : ℚ) = k := by
  unfold pythonRound
  norm_num

theorem roundHalfAway_intCast (k : ℤ) : roundHalfAway (k : ℚ) = k := by
  unfold roundHalfAway
  rcases le_or_lt 0 (k : ℚ) with h | h
  · rw [if_pos h, Int.floor_int_add]
    norm_num
  · rw [if_neg (not_le.mpr h)]
    rw [show (-(k : ℚ) + 1 / 2) = ((-k : ℤ) : ℚ) + (1 / 2 : ℚ) by push_cast; ring]
    rw [Int.floor_int_add]
    norm_num

theorem floor_div_mul_le (a r : ℚ) (hr : 0 < r) : (⌊a / r⌋ : ℚ) * r ≤ a := by
  have h1 : (⌊a / r⌋ : ℚ) ≤ a / r := Int.floor_le _
  have h2 : (⌊a / r⌋ : ℚ) * r ≤ (a / r) * r :=
    mul_le_mul_of_nonneg_right h1 (le_of_lt hr)
  rwa [div_mul_cancel₀ a (ne_of_gt hr)] at h2

theorem le_ceil_div_mul (a r : ℚ) (hr : 0 < r) : a ≤ (⌈a / r⌉ : ℚ) * r := by
  have h1 : a / r ≤ (⌈a / r⌉ : ℚ) := Int.le_ceil _
  have h2 : (a / r) * r ≤ (⌈a / r⌉ : ℚ) * r :=
    mul_le_mul_of_nonneg_right h1 (le_of_lt hr)
  rwa [div_mul_cancel₀ a (ne_of_gt hr)] at h2

theorem centralPixelBBox_west (T iT : ℚ × ℚ → ℚ × ℚ) (lat lon es rs : ℚ) :
    (centralPixelBBox T iT lat lon es rs).west
      = (pythonRound ((T (lon, lat)).1 / rs) : ℚ) * rs
        - (pythonRound (es * rs / 2) : ℚ) := rfl

theorem centralPixelBBox_east (T iT : ℚ × ℚ → ℚ × ℚ) (lat lon es rs : ℚ) :
    (centralPixelBBox T iT lat lon es rs).east
      = (pythonRound ((T (lon, lat)).1 / rs) : ℚ) * rs
        + (pythonRound (es * rs / 2) : ℚ) := rfl

theorem centralPixelBBox_south (T iT : ℚ × ℚ → ℚ × ℚ) (lat lon es rs : ℚ) :
    (centralPixelBBox T iT lat lon es rs).south
      = (pythonRound ((T (lon, lat)).2 / rs) : ℚ) * rs
        - (pythonRound (es * rs / 2) : ℚ) := rfl

theorem centralPixelBBox_north (T iT : ℚ × ℚ → ℚ × ℚ) (lat lon es rs : ℚ) :
    (centralPixelBBox T iT lat lon es rs).north
      = (pythonRound ((T (lon, lat)).2 / rs) : ℚ) * rs
        + (pythonRound (es * rs / 2) : ℚ) := rfl

/-- Claim C3 counterexample: at the valid center-point input
lat = 0, lon = 0, edge_size = 3, resolution = 5 (transforms abstracted as the
identity), the realized width is `2 * round(3 * 5 / 2) = 2 * round(7.5) = 16`
projected units (Python rounds half to even), while the claim demands
`round(edge_size) * resolution = 3 * 5 = 15`; and at edge_size = 3,
resolution = 10 the east corner is 15, not an integer multiple of 10. -/
theorem central_pixel_bbox_width_counterexample :
    (centralPixelBBox id id 0 0 3 5).east - (centralPixelBBox id id 0 0 3 5).west
        ≠ ((roundHalfAway 3 : ℤ) : ℚ) * 5 ∧
    ¬ (∃ m : ℤ, (centralPixelBBox id id 0 0 3 10).east = (m : ℚ) * 10) := by
  constructor
  · rw [centralPixelBBox_east, centralPixelBBox_west]
    norm_num [pythonRound, roundHalfAway]
  · rintro ⟨m, hm⟩
    have h15 : (centralPixelBBox id id 0 0 3 10).east = (15 : ℚ) := by
      rw [centralPixelBBox_east]
      norm_num [pythonRound]
    rw [h15] at hm
    have hz : (15 : ℤ) = m * 10 := by exact_mod_cast hm
    omega

/-- Claim C3 (amended): in center-point mode, for every even integer
edge_size and positive integer resolution, the footprint's width and height in
projected units both equal `round(edge_size) * resolution`, and each of the
four projected bbox corner coordinates is an exact integer multiple of the
resolution. (For general inputs the width and height equal
`2 * round(edge_size * resolution / 2)` under Python's round-half-to-even,
which need not equal `round(edge_size) * resolution`, and the corners need
not be multiples of the resolution.) -/
theorem central_pixel_bbox_even_integer_grid
    (T iT : ℚ × ℚ → ℚ × ℚ) (lat lon edge res : ℚ) (k n : ℤ)
    (hk : edge = ((2 * k : ℤ) : ℚ)) (hr : res = (n : ℚ)) (_hn : 0 < n) :
    (centralPixelBBox T iT lat lon edge res).east
        - (centralPixelBBox T iT lat lon edge res).west
      = ((roundHalfAway edge : ℤ) : ℚ) * res ∧
    (centralPixelBBox T iT lat lon edge res).north
        - (centralPixelBBox T iT lat lon edge res).south
      = ((roundHalfAway edge : ℤ) : ℚ) * res ∧
    (∃ m : ℤ, (centralPixelBBox T iT lat lon edge res).west = (m : ℚ) * res) ∧
    (∃ m : ℤ, (centralPixelBBox T iT lat lon edge res).east = (m : ℚ) * res) ∧
    (∃ m : ℤ, (centralPixelBBox T iT lat lon edge res).south = (m : ℚ) * res) ∧
    (∃ m : ℤ, (centralPixelBBox T iT lat lon edge res).north = (m : ℚ) * res) := by
  subst hk hr
  have hbuf : (pythonRound (((2 * k : ℤ) : ℚ) * (n : ℚ) / 2) : ℚ)
      = ((k * n : ℤ) : ℚ) := by
    rw [show ((2 * k : ℤ) : ℚ) * (n : ℚ) / 2 = ((k * n : ℤ) : ℚ) by
          push_cast; ring,
        pythonRound_intCast]
  have hrha : roundHalfAway ((2 * k : ℤ) : ℚ) = 2 * k := roundHalfAway_intCast _
  rw [centralPixelBBox_west, centralPixelBBox_east, centralPixelBBox_south,
      centralPixelBBox_north, hbuf, hrha]
  refine ⟨by push_cast; ring, by push_cast; ring, ?_, ?_, ?_, ?_⟩
  · exact ⟨pythonRound ((T (lon, lat)).1 / (n : ℚ)) - k, by push_cast; ring⟩
  · exact ⟨pythonRound ((T (lon, lat)).1 / (n : ℚ)) + k, by push_cast; ring⟩
  · exact ⟨pythonRound ((T (lon, lat)).2 / (n : ℚ)) - k, by push_cast; ring⟩
  · exact ⟨pythonRound ((T (lon, lat)).2 / (n : ℚ)) + k, by push_cast; ring⟩

/-- Witness for `central_pixel_bbox_even_integer_grid` at edge_size = 128,
resolution = 10 (k = 64, n = 10), with identity transforms at (0, 0). -/
theorem central_pixel_bbox_even_integer_grid_witness :
    ((128 : ℚ) = ((2 * 64 : ℤ) : ℚ) ∧ (10 : ℚ) = ((10 : ℤ) : ℚ) ∧
      (0 : ℤ) < 10) ∧
    ((centralPixelBBox id id 0 0 128 10).east
        - (centralPixelBBox id id 0 0 128 10).west
      = ((roundHalfAway 128 : ℤ) : ℚ) * 10 ∧
    (centralPixelBBox id id 0 0 128 10).north
        - (centralPixelBBox id id 0 0 128 10).south
      = ((roundHalfAway 128 : ℤ) : ℚ) * 10 ∧
    (∃ m : ℤ, (centralPixelBBox id id 0 0 128 10).west = (m : ℚ) * 10) ∧
    (∃ m : ℤ, (centralPixelBBox id id 0 0 128 10).east = (m : ℚ) * 10) ∧
    (∃ m : ℤ, (centralPixelBBox id id 0 0 128 10).south = (m : ℚ) * 10) ∧
    (∃ m : ℤ, (centralPixelBBox id id 0 0 128 10).north = (m : ℚ) * 10)) :=
  ⟨⟨by norm_num, by norm_num, by norm_num⟩,
   central_pixel_bbox_even_integer_grid id id 0 0 128 10 64 10
     (by norm_num) (by norm_num) (by norm_num)⟩

/-- Claim C4: in center-point mode the footprint is constructed by exactly
these steps: the projected center is snapped per axis as
`round(coord / resolution) * resolution`; the half-extent is
`buffer = round(edge_size * resolution / 2)`; the bbox is center ± buffer on
each axis; the projected polygon is the 5-vertex closed ring
(W,S),(E,S),(E,N),(W,N),(W,S); and the geographic polygon is obtained by
applying the inverse transform to each projected vertex individually. -/
theorem central_pixel_bbox_construction_steps
    (T iT : ℚ × ℚ → ℚ × ℚ) (lat lon es rs : ℚ) :
    (centralPixelBBox T iT lat lon es rs).west
        = (pythonRound ((T (lon, lat)).1 / rs) : ℚ) * rs
          - (pythonRound (es * rs / 2) : ℚ) ∧
    (centralPixelBBox T iT lat lon es rs).east
        = (pythonRound ((T (lon, lat)).1 / rs) : ℚ) * rs
          + (pythonRound (es * rs / 2) : ℚ) ∧
    (centralPixelBBox T iT lat lon es rs).south
        = (pythonRound ((T (lon, lat)).2 / rs) : ℚ) * rs
          - (pythonRound (es * rs / 2) : ℚ) ∧
    (centralPixelBBox T iT lat lon es rs).north
        = (pythonRound ((T (lon, lat)).2 / rs) : ℚ) * rs
          + (pythonRound (es * rs / 2) : ℚ) ∧
    (centralPixelBBox T iT lat lon es rs).polygonUTM
        = [((centralPixelBBox T iT lat lon es rs).west,
            (centralPixelBBox T iT lat lon es rs).south),
           ((centralPixelBBox T iT lat lon es rs).east,
            (centralPixelBBox T iT lat lon es rs).south),
           ((centralPixelBBox T iT lat lon es rs).east,
            (centralPixelBBox T iT lat lon es rs).north),
           ((centralPixelBBox T iT lat lon es rs).west,
            (centralPixelBBox T iT lat lon es rs).north),
           ((centralPixelBBox T iT lat lon es rs).west,
            (centralPixelBBox T iT lat lon es rs).south)] ∧
    (centralPixelBBox T iT lat lon es rs).polygonLatLon
        = ((centralPixelBBox T iT lat lon es rs).polygonUTM).map iT ∧
    (centralPixelBBox T iT lat lon es rs).utmCoords = T (lon, lat) :=
  ⟨rfl, rfl, rfl, rfl, rfl, rfl, rfl⟩

/-- Claim C5 (spec-modelled, `_bbox_to_utm` is absent from the source tree):
bounding-box mode transforms the two diagonal corners to projected space and
expands them outward — floor to the nearest resolution multiple for the
minimum corner, ceil for the maximum corner — so that the realized projected
footprint fully contains the original box: for a transform that acts
separably and monotonically on each axis (as the WGS84-to-UTM transform does
on a valid in-zone box), every point `(a, b)` of the original box — in
particular each of its four corners — is mapped inside the expanded
footprint on both axes. -/
theorem bbox_to_utm_contains_box (T : ℚ × ℚ → ℚ × ℚ) (Tx Ty : ℚ → ℚ)
    (minx miny maxx maxy res : ℚ)
    (hT : ∀ p : ℚ × ℚ, T p = (Tx p.1, Ty p.2))
    (hmx : Monotone Tx) (hmy : Monotone Ty) (hres : 0 < res) :
    ∀ a b : ℚ, minx ≤ a → a ≤ maxx → miny ≤ b → b ≤ maxy →
      (bboxToUTM T minx miny maxx maxy res).minx ≤ (T (a, b)).1 ∧
      (T (a, b)).1 ≤ (bboxToUTM T minx miny maxx maxy res).maxx ∧
      (bboxToUTM T minx miny maxx maxy res).miny ≤ (T (a, b)).2 ∧
      (T (a, b)).2 ≤ (bboxToUTM T minx miny maxx maxy res).maxy := by
  intro a b hamin hamax hbmin hbmax
  have hfp : bboxToUTM T minx miny maxx maxy res =
      { minx := (⌊Tx minx / res⌋ : ℚ) * res
        miny := (⌊Ty miny / res⌋ : ℚ) * res
        maxx := (⌈Tx maxx / res⌉ : ℚ) * res
        maxy := (⌈Ty maxy / res⌉ : ℚ) * res } := by
    simp [bboxToUTM, hT]
  rw [hfp, hT (a, b)]
  refine ⟨?_, ?_, ?_, ?_⟩
  · exact le_trans (floor_div_mul_le _ _ hres) (hmx hamin)
  · exact le_trans (hmx hamax) (le_ceil_div_mul _ _ hres)
  · exact le_trans (floor_div_mul_le _ _ hres) (hmy hbmin)
  · exact le_trans (hmy hbmax) (le_ceil_div_mul _ _ hres)

/-- Witness for `bbox_to_utm_contains_box` at the box (1, 2, 7, 9) with
resolution 5, the identity transform, and the corner (7, 2) of the original
box that is not one of the two transformed diagonal corners. -/
theorem bbox_to_utm_contains_box_witness :
    ((0 : ℚ) < 5 ∧ (1 : ℚ) ≤ 7 ∧ (7 : ℚ) ≤ 7 ∧ (2 : ℚ) ≤ 2 ∧
      (2 : ℚ) ≤ 9) ∧
    ((bboxToUTM id 1 2 7 9 5).minx ≤ (id ((7 : ℚ), (2 : ℚ))).1 ∧
     (id ((7 : ℚ), (2 : ℚ))).1 ≤ (bboxToUTM id 1 2 7 9 5).maxx ∧
     (bboxToUTM id 1 2 7 9 5).miny ≤ (id ((7 : ℚ), (2 : ℚ))).2 ∧
     (id ((7 : ℚ), (2 : ℚ))).2 ≤ (bboxToUTM id 1 2 7 9 5).maxy) :=
  ⟨⟨by norm_num, by norm_num, by norm_num, by norm_num, by norm_num⟩,
   bbox_to_utm_contains_box id id id 1 2 7 9 5 (fun p => rfl) monotone_id
     monotone_id (by norm_num) 7 2 (by norm_num) (by norm_num) (by norm_num)
     (by norm_num)⟩

/-- Claim C7: the Grid Aligner snaps a local coordinate onto the source
raster's grid as `display_offset = round((local_coord - origin) / scale)` and
`new_local = origin + display_offset * scale`; consequently a coordinate
already on the grid (`local_coord = origin + k * scale`) is returned
unchanged. -/
theorem ee_fix_coordinates_snap (origin scale coord : ℚ) (k : ℤ)
    (hs : scale ≠ 0) (hc : coord = origin + (k : ℚ) * scale) :
    eeFixLocal origin scale coord
        = origin + (eeDisplayOffset origin scale coord : ℚ) * scale ∧
    eeFixLocal origin scale coord = coord := by
  refine ⟨rfl, ?_⟩
  have h1 : (coord - origin) / scale = (k : ℚ) := by
    rw [hc, add_sub_cancel_left, mul_div_assoc, div_self hs, mul_one]
  rw [eeFixLocal, eeDisplayOffset, h1, pythonRound_intCast, hc]

/-- Witness for `ee_fix_coordinates_snap` with origin 1, scale 2 and the
grid-aligned coordinate 7 = 1 + 3 * 2. -/
theorem ee_fix_coordinates_snap_witness :
    ((2 : ℚ) ≠ 0 ∧ (7 : ℚ) = 1 + ((3 : ℤ) : ℚ) * 2) ∧
    (eeFixLocal 1 2 7 = 1 + (eeDisplayOffset 1 2 7 : ℚ) * 2 ∧
     eeFixLocal 1 2 7 = 7) :=
  ⟨⟨by norm_num, by norm_num⟩,
   ee_fix_coordinates_snap 1 2 7 3 (by norm_num) (by norm_num)⟩

/-- Claim C1: for every set of patch requests whose fetches complete in an
arbitrary order (`order` is any permutation of the submitted item list), the
assembled cube's time axis is sorted ascending by timestamp, and its length
equals exactly the number of fetches that succeeded — one time step per
success, none for failures. -/
theorem ee_create_time_axis_sorted_complete
    (bandCount edge : ℕ) (items order : List EEItem) (cube : EECube)
    (hperm : order.Perm items)
    (hok : eeAssemble bandCount edge order = Except.ok cube) :
    cube.timeAxis.Sorted (· ≤ ·) ∧
    cube.timeAxis.length
      = (items.filter (fun i => i.result.isOk)).length := by
  simp only [eeAssemble] at hok
  split at hok
  · cases hok
    constructor
    · exact List.sorted_insertionSort (· ≤ ·) _
    · rw [List.length_insertionSort, List.length_map, eeCollect]
      exact (hperm.filter (fun i => i.result.isOk)).length_eq
  · exact Except.noConfusion hok

/-- Witness for `ee_create_time_axis_sorted_complete`: three requests, one of
which fails, completed in reverse order; the assembled cube has the two
success timestamps sorted ascending. -/
theorem ee_create_time_axis_sorted_complete_witness :
    (c1Order.Perm c1Items ∧ eeAssemble 2 4 c1Order = Except.ok c1Cube) ∧
    (c1Cube.timeAxis.Sorted (· ≤ ·) ∧
     c1Cube.timeAxis.length
       = (c1Items.filter (fun i => i.result.isOk)).length) :=
  ⟨⟨by decide, by decide⟩,
   ee_create_time_axis_sorted_complete 2 4 c1Items c1Order c1Cube
     (by decide) (by decide)⟩

/-- Claim C2: a request whose fetch ends in an exception is excluded from the
result set and affects nothing else: the entire assembly outcome over any
completion order containing the failed item — wherever it completes — equals
the outcome without it, so the exception never escapes the collection loop
and every remaining successful request still appears in the assembled cube. -/
theorem ee_create_failure_isolated (bandCount edge : ℕ)
    (l1 l2 : List EEItem) (f : EEItem) (hf : f.result.isOk = false) :
    eeAssemble bandCount edge (l1 ++ f :: l2)
      = eeAssemble bandCount edge (l1 ++ l2) := by
  simp [eeAssemble, eeCollect, List.filter_append, List.filter_cons, hf]

/-- Witness for `ee_create_failure_isolated`: a failing fetch completing
between two successful ones leaves the assembled cube unchanged. -/
theorem ee_create_failure_isolated_witness :
    (EEItem.mk 2 10 (Except.error ())).result.isOk = false ∧
    eeAssemble 1 2
        ([⟨1, 3, Except.ok ()⟩] ++ ⟨2, 10, Except.error ()⟩ :: [⟨3, 1, Except.ok ()⟩])
      = eeAssemble 1 2 ([⟨1, 3, Except.ok ()⟩] ++ [⟨3, 1, Except.ok ()⟩]) :=
  ⟨by decide,
   ee_create_failure_isolated 1 2 [⟨1, 3, Except.ok ()⟩] [⟨3, 1, Except.ok ()⟩]
     ⟨2, 10, Except.error ()⟩ (by decide)⟩

/-- Claim C6: if every fetch in the request set fails, assembly raises an
error surfaced to the caller (the `xr.DataArray` constructor rejects the
empty stack — the spec's `EmptyCubeError` failure class) rather than
returning a zero-time-step but otherwise well-formed cube. -/
theorem ee_assemble_empty_fails (bandCount edge : ℕ) (completed : List EEItem)
    (hall : ∀ i ∈ completed, i.result.isOk = false) :
    eeAssemble bandCount edge completed = Except.error PyError.valueError := by
  have hnil : eeCollect completed = [] := by
    rw [eeCollect, List.filter_eq_nil_iff]
    intro i hi
    simp [hall i hi]
  simp [eeAssemble, hnil, eeDataShape, squeezeShape]

/-- Witness for `ee_assemble_empty_fails`: a single failed fetch yields an
error, not a cube. -/
theorem ee_assemble_empty_fails_witness :
    (∀ i ∈ [EEItem.mk 1 5 (Except.error ())], i.result.isOk = false) ∧
    eeAssemble 3 2 [EEItem.mk 1 5 (Except.error ())]
      = Except.error PyError.valueError :=
  ⟨by decide, ee_assemble_empty_fails 3 2 [⟨1, 5, Except.error ()⟩] (by decide)⟩

/-- Claim C8, evaluated at the geometry x = [3, 4], y = [0, 10] with recorded
center (0, 0): the code's distance field (squared entries) is the x-first
transpose `[[9, 109], [16, 116]]`, while the claim's y-first `[height, width]`
field with entry (j, i) = dist(x_i, y_j) is `[[9, 16], [109, 116]]`; the two
differ, e.g. at row 0, column 1 the code holds dist²(x₀, y₁) = 109 where the
claim requires dist²(x₁, y₀) = 16. -/
theorem compute_distance_to_center_transposed :
    computeDistanceToCenterSq ⟨[3, 4], [0, 10], 0, 0⟩
        = [[9, 109], [16, 116]] ∧
    distanceFieldClaimSq ⟨[3, 4], [0, 10], 0, 0⟩
        = [[9, 16], [109, 116]] ∧
    computeDistanceToCenterSq ⟨[3, 4], [0, 10], 0, 0⟩
        ≠ distanceFieldClaimSq ⟨[3, 4], [0, 10], 0, 0⟩ := by
  refine ⟨?_, ?_, ?_⟩ <;>
    norm_num [computeDistanceToCenterSq, distanceFieldClaimSq, transposeMat,
      consColumn]

/-- Claim C9: `cubo.create` with neither a bounding box nor a complete center
point fails with the invalid-input error before building the footprint that
any catalog search or fetch would consume (no network activity); with a
bounding box present, or latitude and longitude both present, no such error
is raised at the validation step. -/
theorem cubo_create_input_validation (T iT : ℚ × ℚ → ℚ × ℚ)
    (i : CuboInputs) :
    (i.bbox = none ∧ (i.lat = none ∨ i.lon = none) →
      cuboCreatePlan T iT i = Except.error CuboError.invalidInput) ∧
    ((∃ b, i.bbox = some b) ∨
        ((∃ la, i.lat = some la) ∧ (∃ lo, i.lon = some lo)) →
      cuboCreatePlan T iT i ≠ Except.error CuboError.invalidInput) := by
  constructor
  · rintro ⟨hb, hl⟩
    have hcond : i.bbox.isNone ∧ (i.lat.isNone ∨ i.lon.isNone) := by
      rcases hl with h | h <;> simp [hb, h]
    unfold cuboCreatePlan
    rw [if_pos hcond]
  · rintro (⟨b, hb⟩ | ⟨⟨la, hla⟩, ⟨lo, hlo⟩⟩) heq
    · obtain ⟨b1, b2, b3, b4⟩ := b
      simp [cuboCreatePlan, hb] at heq
    · rcases hbb : i.bbox with _ | b
      · simp [cuboCreatePlan, hbb, hla, hlo] at heq
      · obtain ⟨b1, b2, b3, b4⟩ := b
        simp [cuboCreatePlan, hbb] at heq

/-- Witness for `cubo_create_input_validation`: a call with lon but no lat and
no bbox fails with the invalid-input error; a call with a complete center
point does not. -/
theorem cubo_create_input_validation_witness :
    cuboCreatePlan id id c9Invalid = Except.error CuboError.invalidInput ∧
    cuboCreatePlan id id c9Valid ≠ Except.error CuboError.invalidInput :=
  ⟨(cubo_create_input_validation id id c9Invalid).1 ⟨rfl, Or.inl rfl⟩,
   (cubo_create_input_validation id id c9Valid).2
     (Or.inr ⟨⟨50, rfl⟩, ⟨10, rfl⟩⟩)⟩

/-- Claim C10: every call of `earthengine.create` raises a `TypeError` before
any patch fetch is attempted, because it passes six positional arguments to
`_ee_get_projection_metadata`, which has only five parameters: the run result
is the `TypeError` and the count of submitted fetches is zero. -/
theorem ee_create_metadata_arity_type_error (bandCount edge : ℕ)
    (completed : List EEItem) :
    eeCreateRun bandCount edge completed
      = (Except.error PyError.typeError, 0) := rfl

end Cubo
